import Mathlib

/-!
Shallow embedding of the "Futuristic Novel Reader" backend
(src/main.py and src/schemas.py): a FastAPI service over a MongoDB
document store with three collections ("novel", "chapter", "progress").

Modelling conventions:
- BSON values are the inductive `BVal`; a Mongo document is an
  association list `Doc` with (by construction) unique keys.
- `ObjectId` values are natural numbers; `str(ObjectId)` is the 24-digit
  lowercase hex rendering `hex24`, and the `ObjectId(id_str)` constructor
  accepts exactly the 24-character hex strings (`parseOid`).
- Each collection is a list of typed records in insertion order; Mongo
  `find` filters in order, `find_one` returns the first match,
  `update_one(..., upsert=True)` updates the first match in place or
  appends, `sort` orders by the given key.
- Floats are modelled as rationals: every position occurring in the code
  and spec is exactly representable and only equality/order matter.
- A handler is a function from its parsed request data and the database
  state to `Resp × DB × List DbOp`; the trace component records which
  database calls the handler attempted, in order.
- Pydantic validation of a model built *inside* a handler body raises an
  uncaught `ValidationError`, which the framework surfaces as an HTTP 500;
  this is `Resp.exn`.  An explicit `HTTPException` is `Resp.err`.
-/

/-- BSON-ish values occurring in this service's documents. -/
inductive BVal where
  | str (s : String)
  | int (n : Int)
  | num (q : Rat)
  | oidV (n : Nat)
  | strList (l : List String)
  | nullV
deriving DecidableEq, Repr

/-- A Mongo document / Python dict, as an association list in key
insertion order. -/
abbrev Doc := List (String × BVal)

/-- Lowercase hex digit for a value below 16 (mirrors ObjectId rendering). -/
def hexDigitChar (n : Nat) : Char :=
  if n < 10 then Char.ofNat (48 + n) else Char.ofNat (87 + n)

/-- Big-endian hex rendering of `n` on exactly `len` digits. -/
def hexChars : Nat → Nat → List Char
  | 0, _ => []
  | len + 1, n => hexChars len (n / 16) ++ [hexDigitChar (n % 16)]

/-- `str(ObjectId)`: the 24-hex-digit text form of a store identifier. -/
def hex24 (n : Nat) : String := ⟨hexChars 24 n⟩

/-- Numeric value of a hex digit character, if any (both cases accepted,
as by `bson.ObjectId`). -/
def hexVal? (c : Char) : Option Nat :=
  if 48 ≤ c.toNat ∧ c.toNat ≤ 57 then some (c.toNat - 48)
  else if 97 ≤ c.toNat ∧ c.toNat ≤ 102 then some (c.toNat - 87)
  else if 65 ≤ c.toNat ∧ c.toNat ≤ 70 then some (c.toNat - 55)
  else none

/-- Fold a hex digit sequence to its value; `none` on any non-hex char. -/
def parseHexChars (l : List Char) : Option Nat :=
  l.foldl (fun acc c => acc.bind (fun a => (hexVal? c).map (fun v => a * 16 + v))) (some 0)

/-- `ObjectId(id_str)`: succeeds exactly on 24-character hex strings
(the store's native id format); `none` models the `InvalidId` exception. -/
def parseOid (s : String) : Option Nat :=
  if s.length = 24 then parseHexChars s.data else none

/-- Python `dict.pop(k)`'s effect on the mapping: remove the key. -/
def dictPop (d : Doc) (k : String) : Doc :=
  d.filter (fun p => p.1 != k)

/-- Python `d[k] = v`: overwrite in place if the key exists, else append. -/
def dictSet (d : Doc) (k : String) (v : BVal) : Doc :=
  if d.any (fun p => p.1 == k) then d.map (fun p => if p.1 == k then (k, v) else p)
  else d ++ [(k, v)]

/-- Python `str(v)` for the values `serialize` applies it to (only ever an
ObjectId in this code base; other cases given for totality). -/
def strOfBVal : BVal → String
  | .oidV n => hex24 n
  | .str s => s
  | .int n => toString n
  | _ => ""

/-- The `isinstance(v, ObjectId)` conversion step of `serialize`. -/
def convertOid : BVal → BVal
  | .oidV n => .str (hex24 n)
  | v => v

/-- Embeds `serialize` from src/main.py as a pure document function:
empty document returned as is; otherwise `_id` is popped and re-added as a
text `id` field, then every remaining ObjectId value is stringified.
(The source mutates a fresh copy `out = {**doc}`; aliasing is modelled
separately by `serializeHeap`.) -/
def serializeDoc (doc : Doc) : Doc :=
  if doc.isEmpty then doc
  else
    let out :=
      match doc.lookup "_id" with
      | some v => dictSet (dictPop doc "_id") "id" (.str (strOfBVal v))
      | none => doc
    out.map (fun p => (p.1, convertOid p.2))

/-- A heap of Python dict objects: references are list indices. -/
abbrev Heap := List Doc

/-- Dereference a dict object. -/
def heapGet (h : Heap) (r : Nat) : Doc := h.getD r []

/-- Mutate a dict object in place. -/
def heapSet (h : Heap) (r : Nat) (d : Doc) : Heap := h.set r d

/-- Embeds `serialize` from src/main.py at the level of object identity:
`if not doc: return doc` hands back the argument reference itself;
otherwise `out = {**doc}` allocates a fresh dict (a new reference) and all
mutations (`pop`, item assignment, the ObjectId conversion loop) target
that new object only. Returns the updated heap and the returned reference. -/
def serializeHeap (h : Heap) (r : Nat) : Heap × Nat :=
  let doc := heapGet h r
  if doc.isEmpty then (h, r)
  else
    let outRef := h.length
    let h1 := h ++ [doc]
    let h2 :=
      match (heapGet h1 outRef).lookup "_id" with
      | some v => heapSet h1 outRef (dictSet (dictPop (heapGet h1 outRef) "_id") "id" (.str (strOfBVal v)))
      | none => h1
    let h3 := heapSet h2 outRef ((heapGet h2 outRef).map (fun p => (p.1, convertOid p.2)))
    (h3, outRef)

/-!  Entity schemas (src/schemas.py) and request models (src/main.py).  -/

/-- A Python keyword argument slot for a field with a default: the field
may be omitted, passed explicitly as `None`, or given a value. -/
inductive PyArg (α : Type) where
  | omitted
  | givenNone
  | given (a : α)
deriving DecidableEq, Repr

/-- Validated `Novel` schema value (src/schemas.py). -/
structure Novel where
  title : String
  author : String
  description : String
  cover_url : Option String
  genres : List String
deriving DecidableEq, Repr

/-- Pydantic construction of `Novel` (src/schemas.py): `genres` is typed
`List[str]` with `default_factory=list`, so an omitted field defaults to
the empty list while an explicit `None` fails list validation. -/
def Novel.validate (title author description : String) (cover_url : Option String)
    (genres : PyArg (List String)) : Except String Novel :=
  match genres with
  | .omitted => .ok ⟨title, author, description, cover_url, []⟩
  | .givenNone => .error "genres: Input should be a valid list"
  | .given g => .ok ⟨title, author, description, cover_url, g⟩

/-- Validated `Chapter` schema value (src/schemas.py). -/
structure Chapter where
  novel_id : String
  index : Int
  title : String
  content : String
deriving DecidableEq, Repr

/-- Pydantic construction of `Chapter` (src/schemas.py): `index` carries
`ge=1`. -/
def Chapter.validate (novel_id : String) (index : Int) (title content : String) :
    Except String Chapter :=
  if 1 ≤ index then .ok ⟨novel_id, index, title, content⟩
  else .error "index: Input should be greater than or equal to 1"

/-- Validated `Progress` schema value (src/schemas.py). -/
structure Progress where
  user_id : String
  novel_id : String
  chapter_id : String
  position : Rat
deriving DecidableEq, Repr

/-- Pydantic construction of `Progress` (src/schemas.py): `position`
defaults to 0.0 and carries `ge=0.0, le=1.0`.  Note: src/main.py imports
this schema but its progress handler never applies it. -/
def Progress.validate (user_id novel_id chapter_id : String) (position : Rat := 0) :
    Except String Progress :=
  if 0 ≤ position ∧ position ≤ 1 then .ok ⟨user_id, novel_id, chapter_id, position⟩
  else .error "position: out of range"

/-- Request model `NovelCreate` (src/main.py): what FastAPI accepts as a
`POST /api/novels` body.  `cover_url` and `genres` default to `None`. -/
structure NovelCreate where
  title : String
  author : String
  description : String
  cover_url : Option String := none
  genres : Option (List String) := none
deriving DecidableEq, Repr

/-- Request model `ChapterCreate` (src/main.py): note `index` is a bare
`int` here — the `ge=1` bound lives only in the `Chapter` schema. -/
structure ChapterCreate where
  index : Int
  title : String
  content : String
deriving DecidableEq, Repr

/-- Request model `ProgressUpsert` (src/main.py): note `position` is a
bare `float` here — the `[0, 1]` bounds live only in the `Progress`
schema, which the handler does not use. -/
structure ProgressUpsert where
  user_id : String
  novel_id : String
  chapter_id : String
  position : Rat
deriving DecidableEq, Repr

/-!  Stored records and database state.  -/

/-- A stored document of the "novel" collection. -/
structure NovelRec where
  _id : Nat
  title : String
  author : String
  description : String
  cover_url : Option String
  genres : List String
deriving DecidableEq, Repr

/-- The raw Mongo document of a stored novel. -/
def NovelRec.toDoc (r : NovelRec) : Doc :=
  [("_id", .oidV r._id), ("title", .str r.title), ("author", .str r.author),
   ("description", .str r.description),
   ("cover_url", match r.cover_url with | some s => .str s | none => .nullV),
   ("genres", .strList r.genres)]

/-- A stored document of the "chapter" collection. -/
structure ChapterRec where
  _id : Nat
  novel_id : String
  index : Int
  title : String
  content : String
deriving DecidableEq, Repr

/-- The raw Mongo document of a stored chapter. -/
def ChapterRec.toDoc (r : ChapterRec) : Doc :=
  [("_id", .oidV r._id), ("novel_id", .str r.novel_id), ("index", .int r.index),
   ("title", .str r.title), ("content", .str r.content)]

/-- A stored document of the "progress" collection. -/
structure ProgressRec where
  _id : Nat
  user_id : String
  novel_id : String
  chapter_id : String
  position : Rat
deriving DecidableEq, Repr

/-- The raw Mongo document of a stored progress record. -/
def ProgressRec.toDoc (r : ProgressRec) : Doc :=
  [("_id", .oidV r._id), ("user_id", .str r.user_id), ("novel_id", .str r.novel_id),
   ("chapter_id", .str r.chapter_id), ("position", .num r.position)]

/-- Database state: the three collections in insertion order, plus the
generator for the next fresh ObjectId. -/
structure DB where
  novel : List NovelRec
  chapter : List ChapterRec
  progress : List ProgressRec
  nextId : Nat
deriving DecidableEq, Repr

/-- The empty store. -/
def emptyDB : DB := ⟨[], [], [], 0⟩

/-- One attempted database call, with its collection. -/
inductive DbOp where
  | find (coll : String)
  | findOne (coll : String)
  | insert (coll : String)
  | updateOne (coll : String)
  | count (coll : String)
deriving DecidableEq, Repr

/-- HTTP-level outcome of a handler. -/
inductive Resp where
  | okDoc (body : Doc)
  | okList (body : List Doc)
  | okNull
  | okSeed (status : String) (novels : List Doc)
  | err (status : Nat) (detail : String)
  | exn (msg : String)
deriving DecidableEq, Repr

/-!  Storage adapter.  -/

/-- Modelled from the spec: `database.py` (imported by src/main.py but not
present under src/) provides `create_document(collection_name, record)`,
which per §4.1 persists the validated record and returns a newly generated
unique identifier as text.  Instance for the "novel" collection. -/
def create_document_novel (db : DB) (n : Novel) : String × DB :=
  (hex24 db.nextId,
   { db with
       novel := db.novel ++
         [{ _id := db.nextId, title := n.title, author := n.author,
            description := n.description, cover_url := n.cover_url, genres := n.genres }],
       nextId := db.nextId + 1 })

/-- Modelled from the spec: `create_document` for the "chapter"
collection (see `create_document_novel`). -/
def create_document_chapter (db : DB) (c : Chapter) : String × DB :=
  (hex24 db.nextId,
   { db with
       chapter := db.chapter ++
         [{ _id := db.nextId, novel_id := c.novel_id, index := c.index,
            title := c.title, content := c.content }],
       nextId := db.nextId + 1 })

/-!  API handlers (src/main.py).  -/

/-- Embeds `oid` from src/main.py: parse the path id with `ObjectId`,
turning the `InvalidId` failure into `HTTPException(400)`. -/
def oid (id_str : String) : Except (Nat × String) Nat :=
  match parseOid id_str with
  | some o => .ok o
  | none => .error (400, "Invalid ID format")

/-- Embeds `list_novels` (`GET /api/novels`): all novels sorted ascending
by title. -/
def list_novels (db : DB) : Resp × DB × List DbOp :=
  (.okList ((db.novel.mergeSort (fun a b => a.title ≤ b.title)).map
      (fun r => serializeDoc r.toDoc)),
   db, [.find "novel"])

/-- Embeds `create_novel` (`POST /api/novels`): rebuild the request model
as a `Novel` schema value via `NovelSchema(**novel.model_dump())` — so an
omitted `genres` arrives as an explicit `None` — then insert. -/
def create_novel (payload : NovelCreate) (db : DB) : Resp × DB × List DbOp :=
  match Novel.validate payload.title payload.author payload.description payload.cover_url
      (match payload.genres with | some g => .given g | none => .givenNone) with
  | .error e => (.exn e, db, [])
  | .ok n =>
      let res := create_document_novel db n
      (.okDoc [("id", .str res.1)], res.2, [.insert "novel"])

/-- Embeds `get_novel` (`GET /api/novels/{novel_id}`). -/
def get_novel (novel_id : String) (db : DB) : Resp × DB × List DbOp :=
  match oid novel_id with
  | .error e => (.err e.1 e.2, db, [])
  | .ok o =>
      match db.novel.find? (fun r => r._id == o) with
      | none => (.err 404 "Novel not found", db, [.findOne "novel"])
      | some doc => (.okDoc (serializeDoc doc.toDoc), db, [.findOne "novel"])

/-- Embeds `list_chapters` (`GET /api/novels/{novel_id}/chapters`): the
chapters whose `novel_id` field equals the raw path string, sorted
ascending by `index`. -/
def list_chapters (novel_id : String) (db : DB) : Resp × DB × List DbOp :=
  (.okList (((db.chapter.filter (fun c => c.novel_id == novel_id)).mergeSort
      (fun a b => a.index ≤ b.index)).map (fun c => serializeDoc c.toDoc)),
   db, [.find "chapter"])

/-- Embeds `create_chapter` (`POST /api/novels/{novel_id}/chapters`):
rebuild the request model as a `Chapter` schema value with the path
`novel_id` attached, then insert. -/
def create_chapter (novel_id : String) (payload : ChapterCreate) (db : DB) :
    Resp × DB × List DbOp :=
  match Chapter.validate novel_id payload.index payload.title payload.content with
  | .error e => (.exn e, db, [])
  | .ok c =>
      let res := create_document_chapter db c
      (.okDoc [("id", .str res.1)], res.2, [.insert "chapter"])

/-- Embeds `get_chapter` (`GET /api/chapters/{chapter_id}`). -/
def get_chapter (chapter_id : String) (db : DB) : Resp × DB × List DbOp :=
  match oid chapter_id with
  | .error e => (.err e.1 e.2, db, [])
  | .ok o =>
      match db.chapter.find? (fun r => r._id == o) with
      | none => (.err 404 "Chapter not found", db, [.findOne "chapter"])
      | some doc => (.okDoc (serializeDoc doc.toDoc), db, [.findOne "chapter"])

/-- The composite-key filter `{"user_id": u, "novel_id": n}`. -/
def pmatch (u n : String) (r : ProgressRec) : Bool :=
  r.user_id == u && r.novel_id == n

/-- Embeds `get_progress` (`GET /api/progress/{user_id}/{novel_id}`):
no id-format check — the raw path strings are used as the filter; a
missing record yields JSON `null`. -/
def get_progress (user_id novel_id : String) (db : DB) : Resp × DB × List DbOp :=
  match db.progress.find? (pmatch user_id novel_id) with
  | some doc => (.okDoc (serializeDoc doc.toDoc), db, [.findOne "progress"])
  | none => (.okNull, db, [.findOne "progress"])

/-- Mongo `update_one` `$set` branch: rewrite the first record matching
the composite key with the payload's four fields, keeping its `_id`. -/
def setFirstProgress (p : ProgressUpsert) : List ProgressRec → List ProgressRec
  | [] => []
  | r :: rs =>
      if pmatch p.user_id p.novel_id r then
        { r with user_id := p.user_id, novel_id := p.novel_id,
                 chapter_id := p.chapter_id, position := p.position } :: rs
      else r :: setFirstProgress p rs

/-- The state transition of Mongo
`update_one(filter, $set, upsert=True)` on the composite key: update the
first matching record in place, or insert a fresh one. -/
def upsertState (p : ProgressUpsert) (db : DB) : DB :=
  if db.progress.any (pmatch p.user_id p.novel_id) then
    { db with progress := setFirstProgress p db.progress }
  else
    { db with
        progress := db.progress ++
          [{ _id := db.nextId, user_id := p.user_id, novel_id := p.novel_id,
             chapter_id := p.chapter_id, position := p.position }],
        nextId := db.nextId + 1 }

/-- Embeds `upsert_progress` (`POST /api/progress`): Mongo
`update_one(filter, $set, upsert=True)` on the composite key
(`upsertState`), then re-read with `find_one` and return the serialized
result (or `null` if absent, since `serialize` passes falsy values
through).  No schema validation of `position` happens anywhere on this
path. -/
def upsert_progress (p : ProgressUpsert) (db : DB) : Resp × DB × List DbOp :=
  let db1 := upsertState p db
  match db1.progress.find? (pmatch p.user_id p.novel_id) with
  | some doc => (.okDoc (serializeDoc doc.toDoc), db1, [.updateOne "progress", .findOne "progress"])
  | none => (.okNull, db1, [.updateOne "progress", .findOne "progress"])

/-- Embeds `seed_demo_data` (`POST /api/seed`): if any novel exists,
return up to 5 existing novels with status "exists"; otherwise insert the
two fixed demo novels and three fixed demo chapters and return all novels
with status "seeded". -/
def seed_demo_data (db : DB) : Resp × DB × List DbOp :=
  if db.novel.length > 0 then
    (.okSeed "exists" ((db.novel.take 5).map (fun r => serializeDoc r.toDoc)),
     db, [.count "novel", .find "novel"])
  else
    let n1 : Novel :=
      { title := "Neon Skies of Andromeda", author := "Ava Kestrel",
        description := "A rogue pilot and a sentient starship uncover a conspiracy spanning galaxies.",
        cover_url := some "https://images.unsplash.com/photo-1520975980471-4f0f2c56b05c?q=80&w=1200&auto=format&fit=crop",
        genres := ["Sci-Fi", "Space Opera", "Adventure"] }
    let n2 : Novel :=
      { title := "Quantum Garden", author := "Jun Park",
        description := "In a city where time blossoms like petals, a gardener tends to timelines.",
        cover_url := some "https://images.unsplash.com/photo-1526318472351-c75fcf070305?q=80&w=1200&auto=format&fit=crop",
        genres := ["Speculative", "Time", "Mystery"] }
    let r1 := create_document_novel db n1
    let r2 := create_document_novel r1.2 n2
    let ch1 : Chapter :=
      { novel_id := r1.1, index := 1, title := "Docking Under Neon",
        content := "The city-orbit glowed like a halo around the dead moon. As Kestrel aligned the ship with Dock 47, the hull hummed—anxious, aware.\n\"You sure about this?\" the ship asked, voice like rain on glass.\n\"No,\" she said, and smiled." }
    let ch2 : Chapter :=
      { novel_id := r1.1, index := 2, title := "Ghost Frequencies",
        content := "The transmission carried a heartbeat buried in static. Every station they passed began to blink in unison.\nThe pattern spelled a name Kestrel swore she\x27d forgotten." }
    let ch3 : Chapter :=
      { novel_id := r2.1, index := 1, title := "Pruning the Dawn",
        content := "Morning arrived in layers, like rings inside a tree. Jae clipped the excess day and folded it into the compost of yesterday." }
    let s1 := create_document_chapter r2.2 ch1
    let s2 := create_document_chapter s1.2 ch2
    let s3 := create_document_chapter s2.2 ch3
    (.okSeed "seeded" (s3.2.novel.map (fun r => serializeDoc r.toDoc)),
     s3.2,
     [.count "novel", .insert "novel", .insert "novel",
      .insert "chapter", .insert "chapter", .insert "chapter", .find "novel"])

/-- Run a sequence of `POST /api/progress` calls, collecting the
responses and threading the state. -/
def runUpserts : List ProgressUpsert → DB → List Resp × DB
  | [], db => ([], db)
  | p :: ps, db =>
      let step := upsert_progress p db
      let rest := runUpserts ps step.2.1
      (step.1 :: rest.1, rest.2)

/-- The serialized current progress document for a composite key (what a
re-read after an upsert returns). -/
def postResp (u n : String) (db : DB) : Resp :=
  match db.progress.find? (pmatch u n) with
  | some r => .okDoc (serializeDoc r.toDoc)
  | none => .okNull

/-- Each call of a `POST /api/progress` sequence returns exactly the
post-upsert document of its own resulting state. -/
def eachRespIsPostDoc (u n : String) : List ProgressUpsert → DB → Prop
  | [], _ => True
  | p :: ps, db =>
      (upsert_progress p db).1 = postResp u n (upsert_progress p db).2.1 ∧
      eachRespIsPostDoc u n ps (upsert_progress p db).2.1

/-- Number of stored progress records for a composite key. -/
def countP (u n : String) (l : List ProgressRec) : Nat :=
  (l.filter (pmatch u n)).length

/-!  Helper lemmas.  -/

theorem getD_concat_length {α : Type _} (l : List α) (x d : α) :
    (l ++ [x]).getD l.length d = x := by
  induction l with
  | nil => rfl
  | cons a t ih => simpa using ih

theorem getD_concat_lt {α : Type _} (l : List α) (x d : α) (i : Nat) (h : i < l.length) :
    (l ++ [x]).getD i d = l.getD i d := by
  induction l generalizing i with
  | nil => simp at h
  | cons a t ih =>
    cases i with
    | zero => rfl
    | succ j => simpa using ih j (by simpa using h)

theorem set_concat_length {α : Type _} (l : List α) (x y : α) :
    (l ++ [x]).set l.length y = l ++ [y] := by
  induction l with
  | nil => rfl
  | cons a t ih => simpa using ih

theorem pmatch_self (p : ProgressUpsert) (r : ProgressRec) :
    pmatch p.user_id p.novel_id
      { r with user_id := p.user_id, novel_id := p.novel_id,
               chapter_id := p.chapter_id, position := p.position } = true := by
  simp [pmatch]

theorem setFirstProgress_count (p : ProgressUpsert) (l : List ProgressRec) :
    countP p.user_id p.novel_id (setFirstProgress p l) = countP p.user_id p.novel_id l := by
  induction l with
  | nil => rfl
  | cons r rs ih =>
    by_cases h : pmatch p.user_id p.novel_id r = true
    · simp [setFirstProgress, h, countP, List.filter_cons, pmatch_self p r]
    · simp only [setFirstProgress, h, if_neg, Bool.false_eq_true, ite_false]
      simpa [countP, List.filter_cons, h] using ih

theorem setFirstProgress_find? (p : ProgressUpsert) (l : List ProgressRec)
    (h : l.any (pmatch p.user_id p.novel_id) = true) :
    ∃ i, (setFirstProgress p l).find? (pmatch p.user_id p.novel_id) =
      some { _id := i, user_id := p.user_id, novel_id := p.novel_id,
             chapter_id := p.chapter_id, position := p.position } := by
  induction l with
  | nil => simp at h
  | cons r rs ih =>
    by_cases hr : pmatch p.user_id p.novel_id r = true
    · refine ⟨r._id, ?_⟩
      simp [setFirstProgress, hr, List.find?_cons_of_pos, pmatch_self p r]
    · have hrs : rs.any (pmatch p.user_id p.novel_id) = true := by
        simpa [hr] using h
      obtain ⟨i, hi⟩ := ih hrs
      refine ⟨i, ?_⟩
      simpa [setFirstProgress, hr, List.find?_cons_of_neg] using hi

theorem countP_ne_zero_of_any (u n : String) (l : List ProgressRec)
    (h : l.any (pmatch u n) = true) : countP u n l ≠ 0 := by
  obtain ⟨x, hx, hq⟩ := List.any_eq_true.mp h
  have : x ∈ l.filter (pmatch u n) := List.mem_filter.mpr ⟨hx, hq⟩
  intro hc
  rw [countP, List.length_eq_zero] at hc
  simp [hc] at this

theorem countP_eq_zero_of_not_any (u n : String) (l : List ProgressRec)
    (h : l.any (pmatch u n) = false) : countP u n l = 0 := by
  rw [countP, List.length_eq_zero, List.filter_eq_nil_iff]
  intro x hx
  simpa using (List.any_eq_false.mp h) x hx

/-- The exact shape of a serialized progress document. -/
theorem serializeDoc_progress (r : ProgressRec) :
    serializeDoc r.toDoc =
      [("user_id", .str r.user_id), ("novel_id", .str r.novel_id),
       ("chapter_id", .str r.chapter_id), ("position", .num r.position),
       ("id", .str (hex24 r._id))] := rfl

theorem upsert_progress_eq (p : ProgressUpsert) (db : DB) :
    upsert_progress p db =
      (postResp p.user_id p.novel_id (upsertState p db), upsertState p db,
       [.updateOne "progress", .findOne "progress"]) := by
  unfold upsert_progress postResp
  cases h : (upsertState p db).progress.find? (pmatch p.user_id p.novel_id) <;> simp [h]

theorem upsertState_novel (p : ProgressUpsert) (db : DB) :
    (upsertState p db).novel = db.novel := by
  unfold upsertState
  split <;> rfl

theorem upsertState_chapter (p : ProgressUpsert) (db : DB) :
    (upsertState p db).chapter = db.chapter := by
  unfold upsertState
  split <;> rfl

theorem upsertState_find? (p : ProgressUpsert) (db : DB) :
    ∃ r : ProgressRec,
      (upsertState p db).progress.find? (pmatch p.user_id p.novel_id) = some r ∧
      r.user_id = p.user_id ∧ r.novel_id = p.novel_id ∧
      r.chapter_id = p.chapter_id ∧ r.position = p.position := by
  by_cases hany : db.progress.any (pmatch p.user_id p.novel_id) = true
  · obtain ⟨i, hfind⟩ := setFirstProgress_find? p db.progress hany
    refine ⟨⟨i, p.user_id, p.novel_id, p.chapter_id, p.position⟩, ?_, rfl, rfl, rfl, rfl⟩
    unfold upsertState
    rw [if_pos hany]
    exact hfind
  · have hanyf : db.progress.any (pmatch p.user_id p.novel_id) = false :=
      Bool.eq_false_iff.mpr hany
    have hnone : db.progress.find? (pmatch p.user_id p.novel_id) = none :=
      List.find?_eq_none.mpr (fun x hx => by simpa using (List.any_eq_false.mp hanyf) x hx)
    refine ⟨⟨db.nextId, p.user_id, p.novel_id, p.chapter_id, p.position⟩, ?_, rfl, rfl, rfl, rfl⟩
    unfold upsertState
    rw [if_neg hany]
    show (db.progress ++
        [(⟨db.nextId, p.user_id, p.novel_id, p.chapter_id, p.position⟩ : ProgressRec)]).find?
        (pmatch p.user_id p.novel_id) = _
    rw [List.find?_append, hnone]
    simp [pmatch]

theorem upsertState_count (p : ProgressUpsert) (db : DB) :
    countP p.user_id p.novel_id (upsertState p db).progress =
      (if countP p.user_id p.novel_id db.progress = 0 then 1
       else countP p.user_id p.novel_id db.progress) := by
  by_cases hany : db.progress.any (pmatch p.user_id p.novel_id) = true
  · have hne := countP_ne_zero_of_any p.user_id p.novel_id db.progress hany
    unfold upsertState
    rw [if_pos hany, if_neg hne]
    show countP p.user_id p.novel_id (setFirstProgress p db.progress) = _
    exact setFirstProgress_count p db.progress
  · have hanyf : db.progress.any (pmatch p.user_id p.novel_id) = false :=
      Bool.eq_false_iff.mpr hany
    have hzero := countP_eq_zero_of_not_any p.user_id p.novel_id db.progress hanyf
    unfold upsertState
    rw [if_neg hany, if_pos hzero]
    show countP p.user_id p.novel_id (db.progress ++
        [(⟨db.nextId, p.user_id, p.novel_id, p.chapter_id, p.position⟩ : ProgressRec)]) = 1
    have hfil : (db.progress.filter (pmatch p.user_id p.novel_id)).length = 0 := hzero
    simp [countP, List.filter_append, pmatch, hfil]

/-- One `POST /api/progress` call: the state afterwards holds a first
matching record carrying exactly the payload's four fields, the response
is its serialization, the other collections are untouched, and the number
of records for the composite key becomes 1 if it was 0 and is otherwise
preserved. -/
theorem upsert_progress_step (p : ProgressUpsert) (db : DB) :
    ∃ r : ProgressRec,
      (upsert_progress p db).2.1.progress.find? (pmatch p.user_id p.novel_id) = some r ∧
      r.user_id = p.user_id ∧ r.novel_id = p.novel_id ∧
      r.chapter_id = p.chapter_id ∧ r.position = p.position ∧
      (upsert_progress p db).1 = .okDoc (serializeDoc r.toDoc) ∧
      (upsert_progress p db).2.1.novel = db.novel ∧
      (upsert_progress p db).2.1.chapter = db.chapter ∧
      countP p.user_id p.novel_id (upsert_progress p db).2.1.progress =
        (if countP p.user_id p.novel_id db.progress = 0 then 1
         else countP p.user_id p.novel_id db.progress) := by
  obtain ⟨r, hfind, hu, hn, hc, hpos⟩ := upsertState_find? p db
  refine ⟨r, ?_, hu, hn, hc, hpos, ?_, ?_, ?_, ?_⟩
  · rw [upsert_progress_eq]
    exact hfind
  · rw [upsert_progress_eq]
    simp [postResp, hfind]
  · rw [upsert_progress_eq]
    exact upsertState_novel p db
  · rw [upsert_progress_eq]
    exact upsertState_chapter p db
  · rw [upsert_progress_eq]
    exact upsertState_count p db

/-- Fold of `upsert_progress_step` over a call sequence for one composite
key: exactly one record remains, holding the last call's position, and
every call returned its own post-upsert document. -/
theorem runUpserts_invariant (u n : String) (ps : List ProgressUpsert) :
    ∀ (db : DB) (plast : ProgressUpsert),
      (∀ p ∈ ps, p.user_id = u ∧ p.novel_id = n) →
      ps.getLast? = some plast →
      countP u n db.progress ≤ 1 →
      countP u n (runUpserts ps db).2.progress = 1 ∧
      (∃ r, (runUpserts ps db).2.progress.find? (pmatch u n) = some r ∧
        r.position = plast.position) ∧
      eachRespIsPostDoc u n ps db := by
  induction ps with
  | nil =>
    intro db plast _ hlast _
    simp at hlast
  | cons p ps ih =>
    intro db plast hps hlast hcount
    have hp : p.user_id = u ∧ p.novel_id = n := hps p (List.mem_cons_self p ps)
    obtain ⟨r, hfind, hu, hn, hc, hpos, hresp, hnovel, hchap, hcnt⟩ := upsert_progress_step p db
    rw [hp.1, hp.2] at hfind hcnt
    have h1 : countP u n (upsert_progress p db).2.1.progress = 1 := by
      rw [hcnt]
      rcases Nat.le_one_iff_eq_zero_or_eq_one.mp hcount with h | h <;> simp [h]
    have hrespPost : (upsert_progress p db).1 = postResp u n (upsert_progress p db).2.1 := by
      rw [hresp]
      simp only [postResp]
      rw [hfind]
    cases ps with
    | nil =>
      have hpl : plast = p := by
        simp only [List.getLast?_singleton, Option.some.injEq] at hlast
        exact hlast.symm
      exact ⟨h1, ⟨r, hfind, by rw [hpl]; exact hpos⟩, hrespPost, trivial⟩
    | cons q qs =>
      have hps' : ∀ x ∈ q :: qs, x.user_id = u ∧ x.novel_id = n :=
        fun x hx => hps x (List.mem_cons_of_mem p hx)
      have hlast' : (q :: qs).getLast? = some plast := by
        rw [← hlast]
        exact (List.getLast?_cons_cons).symm
      obtain ⟨ha, hb, hcz⟩ :=
        ih (upsert_progress p db).2.1 plast hps' hlast' (by rw [h1])
      exact ⟨ha, hb, hrespPost, hcz⟩

theorem serializeHeap_empty (h : Heap) (r : Nat) (he : heapGet h r = []) :
    serializeHeap h r = (h, r) := by
  simp only [serializeHeap, he]
  simp

/-- On a nonempty document, `serialize` allocates exactly one new dict —
the serialized copy — at the end of the heap and returns its reference. -/
theorem serializeHeap_eq (h : Heap) (r : Nat) (hne : (heapGet h r).isEmpty = false) :
    serializeHeap h r = (h ++ [serializeDoc (heapGet h r)], h.length) := by
  have hg : ∀ d : Doc, heapGet (h ++ [d]) h.length = d := by
    intro d
    unfold heapGet
    exact getD_concat_length h d []
  have hs : ∀ d d2 : Doc, heapSet (h ++ [d]) h.length d2 = h ++ [d2] := by
    intro d d2
    unfold heapSet
    exact set_concat_length h d d2
  simp only [serializeHeap, hne, Bool.false_eq_true, if_false]
  rw [hg]
  cases hl : (heapGet h r).lookup "_id" with
  | none =>
      simp only [hg, hs]
      have hsd : serializeDoc (heapGet h r) =
          (heapGet h r).map (fun p => (p.1, convertOid p.2)) := by
        simp [serializeDoc, hne, hl]
      rw [hsd]
  | some v =>
      simp only [hg, hs]
      have hsd : serializeDoc (heapGet h r) =
          (dictSet (dictPop (heapGet h r) "_id") "id" (.str (strOfBVal v))).map
            (fun p => (p.1, convertOid p.2)) := by
        simp [serializeDoc, hne, hl]
      rw [hsd]

theorem hexVal_hexDigitChar (m : Nat) (hm : m < 16) :
    hexVal? (hexDigitChar m) = some m := by
  interval_cases m <;> decide

theorem hexChars_length (len : Nat) : ∀ n : Nat, (hexChars len n).length = len := by
  induction len with
  | zero => intro n; rfl
  | succ k ih => intro n; simp [hexChars, ih]

theorem parseHexChars_append (l : List Char) (c : Char) :
    parseHexChars (l ++ [c]) =
      (parseHexChars l).bind (fun a => (hexVal? c).map (fun v => a * 16 + v)) := by
  simp [parseHexChars, List.foldl_append]

theorem parseHexChars_hexChars (len : Nat) :
    ∀ n : Nat, n < 16 ^ len → parseHexChars (hexChars len n) = some n := by
  induction len with
  | zero =>
    intro n h
    interval_cases n
    rfl
  | succ k ih =>
    intro n h
    have hdiv : n / 16 < 16 ^ k := by
      rw [Nat.div_lt_iff_lt_mul (by norm_num : (0 : Nat) < 16)]
      rw [pow_succ] at h
      exact h
    rw [hexChars, parseHexChars_append, ih (n / 16) hdiv,
        hexVal_hexDigitChar (n % 16) (Nat.mod_lt n (by norm_num))]
    show some (n / 16 * 16 + n % 16) = some n
    congr 1
    omega

/-- Round-trip of the store's id encoding: rendering a fresh ObjectId to
its 24-hex-digit text and parsing it back recovers the identifier. -/
theorem parseOid_hex24 (n : Nat) (h : n < 16 ^ 24) : parseOid (hex24 n) = some n := by
  have hlen : (hex24 n).length = 24 := by
    show (hexChars 24 n).length = 24
    exact hexChars_length 24 n
  unfold parseOid
  rw [if_pos hlen]
  show parseHexChars (hexChars 24 n) = some n
  exact parseHexChars_hexChars 24 n h

/-- The exact shape of a serialized novel document. -/
theorem serializeDoc_novel (r : NovelRec) :
    serializeDoc r.toDoc =
      [("title", .str r.title), ("author", .str r.author),
       ("description", .str r.description),
       ("cover_url", match r.cover_url with | some s => BVal.str s | none => BVal.nullV),
       ("genres", .strList r.genres), ("id", .str (hex24 r._id))] := by
  cases r with
  | mk i t a d cu g => cases cu <;> rfl

/-- Claim C1: for a payload that provides `genres`, the POST/GET
round-trip does hold — the returned id reads back a document whose
fields equal the payload's.  But for a payload that omits `genres`
(the spec's defaulting case) the handler re-validates `model_dump()`'s
explicit `genres=None` against the `Novel` schema, which rejects it, so
the request dies with an unhandled validation error (HTTP 500), nothing
is inserted, and no novel with `genres = []` ever becomes readable via
`GET /api/novels/(id)`. -/
theorem claim_C1_create_roundtrip :
    (∀ (db : DB) (t a d : String) (cu : Option String) (g : List String),
      db.nextId < 16 ^ 24 →
      (∀ r ∈ db.novel, r._id ≠ db.nextId) →
      (create_novel { title := t, author := a, description := d, cover_url := cu, genres := some g } db).1 =
        .okDoc [("id", .str (hex24 db.nextId))] ∧
      (get_novel (hex24 db.nextId)
          (create_novel { title := t, author := a, description := d, cover_url := cu, genres := some g } db).2.1).1 =
        .okDoc [("title", .str t), ("author", .str a), ("description", .str d),
                ("cover_url", match cu with | some s => BVal.str s | none => BVal.nullV),
                ("genres", .strList g), ("id", .str (hex24 db.nextId))]) ∧
    (∀ db : DB,
      create_novel { title := "t", author := "a", description := "d" } db =
        (.exn "genres: Input should be a valid list", db, [])) := by
  refine ⟨?_, fun db => rfl⟩
  intro db t a d cu g hbound hfresh
  refine ⟨rfl, ?_⟩
  have hoid : parseOid (hex24 db.nextId) = some db.nextId := parseOid_hex24 db.nextId hbound
  have hnone : db.novel.find? (fun r => r._id == db.nextId) = none :=
    List.find?_eq_none.mpr (fun x hx => by simpa using hfresh x hx)
  have hfind : ((create_novel { title := t, author := a, description := d, cover_url := cu, genres := some g } db).2.1.novel).find?
      (fun r => r._id == db.nextId) = some ⟨db.nextId, t, a, d, cu, g⟩ := by
    show (db.novel ++ [(⟨db.nextId, t, a, d, cu, g⟩ : NovelRec)]).find?
        (fun r => r._id == db.nextId) = _
    rw [List.find?_append, hnone]
    simp
  simp [get_novel, oid, hoid, hfind, serializeDoc_novel]

theorem claim_C1_create_roundtrip_witness :
    emptyDB.nextId < 16 ^ 24 ∧
    (∀ r ∈ emptyDB.novel, r._id ≠ emptyDB.nextId) ∧
    (create_novel { title := "t", author := "a", description := "d", cover_url := some "u", genres := some ["g"] } emptyDB).1 =
      .okDoc [("id", .str (hex24 0))] ∧
    (get_novel (hex24 0)
        (create_novel { title := "t", author := "a", description := "d", cover_url := some "u", genres := some ["g"] } emptyDB).2.1).1 =
      .okDoc [("title", .str "t"), ("author", .str "a"), ("description", .str "d"),
              ("cover_url", BVal.str "u"), ("genres", .strList ["g"]),
              ("id", .str (hex24 0))] ∧
    create_novel { title := "t", author := "a", description := "d" } emptyDB =
      (.exn "genres: Input should be a valid list", emptyDB, []) := by
  have h := claim_C1_create_roundtrip.1 emptyDB "t" "a" "d" (some "u") ["g"]
    (by decide) (by simp [emptyDB])
  exact ⟨by decide, by simp [emptyDB], h.1, h.2, claim_C1_create_roundtrip.2 emptyDB⟩

/-- Claim C2 (behaviour of the code at the spec's boundary cases):
`POST /api/progress` accepts positions 0.0 and 1.0, but it equally
accepts -0.01 and 1.01 — the request model `ProgressUpsert` carries no
range constraint and the handler never applies the `Progress` schema, so
an out-of-range position is written to the store and echoed back instead
of being rejected with 422. -/
theorem claim_C2_position_boundary :
    (upsert_progress ⟨"u", "n", "c", 0⟩ emptyDB).2.1.progress =
      [⟨0, "u", "n", "c", 0⟩] ∧
    (upsert_progress ⟨"u", "n", "c", 1⟩ emptyDB).2.1.progress =
      [⟨0, "u", "n", "c", 1⟩] ∧
    (upsert_progress ⟨"u", "n", "c", -1/100⟩ emptyDB).1 =
      .okDoc [("user_id", .str "u"), ("novel_id", .str "n"), ("chapter_id", .str "c"),
              ("position", .num (-1/100)), ("id", .str (hex24 0))] ∧
    (upsert_progress ⟨"u", "n", "c", -1/100⟩ emptyDB).2.1.progress =
      [⟨0, "u", "n", "c", -1/100⟩] ∧
    (upsert_progress ⟨"u", "n", "c", 101/100⟩ emptyDB).2.1.progress =
      [⟨0, "u", "n", "c", 101/100⟩] :=
  ⟨rfl, rfl, rfl, rfl, rfl⟩

/-- Claim C5 (behaviour of the code at the spec's failing case): a
chapter payload with `index = 0` is indeed rejected without any insert,
but through an unhandled schema validation error (HTTP 500), not a 422 —
the request model `ChapterCreate` has no `ge=1` bound and the `Chapter`
schema is only applied inside the handler body.  A payload with
`index = 1` is validated, gets the path `novel_id` attached, is inserted,
and the new id is returned. -/
theorem claim_C5_chapter_validation (db : DB) (nid t c : String) :
    create_chapter nid { index := 0, title := t, content := c } db =
      (.exn "index: Input should be greater than or equal to 1", db, []) ∧
    (create_chapter nid { index := 1, title := t, content := c } db).1 =
      .okDoc [("id", .str (hex24 db.nextId))] ∧
    (create_chapter nid { index := 1, title := t, content := c } db).2.1.chapter =
      db.chapter ++ [⟨db.nextId, nid, 1, t, c⟩] ∧
    (create_chapter nid { index := 1, title := t, content := c } db).2.2 =
      [.insert "chapter"] :=
  ⟨rfl, rfl, rfl, rfl⟩

/-- Claim C8 counterexample: a creation payload with an empty title is
not rejected — it is accepted and inserted (response is the new id, the
collection grows). -/
theorem claim_C8_counterexample :
    (create_novel { title := "", author := "a", description := "d", genres := some [] } emptyDB).1 =
      .okDoc [("id", .str "000000000000000000000000")] ∧
    (create_novel { title := "", author := "a", description := "d", genres := some [] } emptyDB).2.1.novel.length =
      1 :=
  ⟨rfl, rfl⟩

/-- Claim C8 as amended: no non-empty constraint on `title` exists in the
code — a payload whose title is the empty string (and whose genres are
given, avoiding the unrelated C1 failure) passes validation, is inserted
with the empty title, and the new id is returned. -/
theorem claim_C8_empty_title_accepted (db : DB) (a d : String)
    (cu : Option String) (g : List String) :
    (create_novel { title := "", author := a, description := d, cover_url := cu, genres := some g } db).1 =
      .okDoc [("id", .str (hex24 db.nextId))] ∧
    (create_novel { title := "", author := a, description := d, cover_url := cu, genres := some g } db).2.1.novel =
      db.novel ++ [⟨db.nextId, "", a, d, cu, g⟩] ∧
    (create_novel { title := "", author := a, description := d, cover_url := cu, genres := some g } db).2.2 =
      [.insert "novel"] :=
  ⟨rfl, rfl, rfl⟩

/-- Claim C9: every `POST /api/progress` is accepted and overwrites the
whole record for its composite key — the stored first-match record and
the returned document carry the payload's `user_id`, `novel_id`,
`chapter_id` and `position`. -/
theorem claim_C9_upsert_overwrites_all_fields (p : ProgressUpsert) (db : DB) :
    ∃ r : ProgressRec,
      (upsert_progress p db).2.1.progress.find? (pmatch p.user_id p.novel_id) = some r ∧
      r.user_id = p.user_id ∧ r.novel_id = p.novel_id ∧
      r.chapter_id = p.chapter_id ∧ r.position = p.position ∧
      (upsert_progress p db).1 =
        .okDoc [("user_id", .str p.user_id), ("novel_id", .str p.novel_id),
                ("chapter_id", .str p.chapter_id), ("position", .num p.position),
                ("id", .str (hex24 r._id))] := by
  obtain ⟨r, hfind, hu, hn, hc, hpos, hresp, _, _, _⟩ := upsert_progress_step p db
  refine ⟨r, hfind, hu, hn, hc, hpos, ?_⟩
  rw [hresp, serializeDoc_progress, hu, hn, hc, hpos]

/-- Claim C3: for a fixed composite key, any nonempty sequence of
`POST /api/progress` calls leaves exactly one Progress record for that
key, its position is the last call's position, and each call returned the
post-upsert document of its own resulting state. -/
theorem claim_C3_upsert_sequence (u n : String) (ps : List ProgressUpsert) (db : DB)
    (plast : ProgressUpsert)
    (hps : ∀ p ∈ ps, p.user_id = u ∧ p.novel_id = n)
    (hlast : ps.getLast? = some plast)
    (hcount : countP u n db.progress ≤ 1) :
    countP u n (runUpserts ps db).2.progress = 1 ∧
    (∃ r, (runUpserts ps db).2.progress.find? (pmatch u n) = some r ∧
      r.position = plast.position) ∧
    eachRespIsPostDoc u n ps db :=
  runUpserts_invariant u n ps db plast hps hlast hcount

theorem claim_C3_upsert_sequence_witness :
    (∀ p ∈ [(⟨"u", "n", "c1", 0⟩ : ProgressUpsert), ⟨"u", "n", "c2", 1⟩],
      p.user_id = "u" ∧ p.novel_id = "n") ∧
    [(⟨"u", "n", "c1", 0⟩ : ProgressUpsert), ⟨"u", "n", "c2", 1⟩].getLast? =
      some ⟨"u", "n", "c2", 1⟩ ∧
    countP "u" "n" emptyDB.progress ≤ 1 ∧
    (countP "u" "n"
        (runUpserts [(⟨"u", "n", "c1", 0⟩ : ProgressUpsert), ⟨"u", "n", "c2", 1⟩]
          emptyDB).2.progress = 1 ∧
      (∃ r, (runUpserts [(⟨"u", "n", "c1", 0⟩ : ProgressUpsert), ⟨"u", "n", "c2", 1⟩]
            emptyDB).2.progress.find? (pmatch "u" "n") = some r ∧
        r.position = (⟨"u", "n", "c2", 1⟩ : ProgressUpsert).position) ∧
      eachRespIsPostDoc "u" "n"
        [(⟨"u", "n", "c1", 0⟩ : ProgressUpsert), ⟨"u", "n", "c2", 1⟩] emptyDB) :=
  ⟨by simp, rfl, by decide,
   claim_C3_upsert_sequence "u" "n"
     [(⟨"u", "n", "c1", 0⟩ : ProgressUpsert), ⟨"u", "n", "c2", 1⟩] emptyDB
     ⟨"u", "n", "c2", 1⟩ (by simp) rfl (by decide)⟩

/-- Claim C4 counterexample: a malformed identifier at
`GET /api/progress/(user_id)/(novel_id)` is not rejected with 400 before
touching the database — the handler does no id-format check, issues the
`find_one` call with the raw strings, and answers 200 with JSON null. -/
theorem claim_C4_counterexample :
    (get_progress "not-an-objectid" "also-not-one" emptyDB).1 = .okNull ∧
    (get_progress "not-an-objectid" "also-not-one" emptyDB).2.2 = [.findOne "progress"] :=
  ⟨rfl, rfl⟩

/-- Claim C4 as amended: for the ObjectId-keyed GETs
(`/api/novels/(id)`, `/api/chapters/(id)`) a malformed id yields 400 with
no database call and a well-formed id with no matching record yields 404,
while `GET /api/progress/...` never 400s: it filters by the raw strings
and returns the document or null. -/
theorem claim_C4_id_validation (s t : String) (db : DB) (o : Nat)
    (hm : parseOid s = none) (hv : parseOid t = some o)
    (hnovel : ∀ r ∈ db.novel, r._id ≠ o) (hchap : ∀ r ∈ db.chapter, r._id ≠ o) :
    get_novel s db = (.err 400 "Invalid ID format", db, []) ∧
    get_chapter s db = (.err 400 "Invalid ID format", db, []) ∧
    get_novel t db = (.err 404 "Novel not found", db, [.findOne "novel"]) ∧
    get_chapter t db = (.err 404 "Chapter not found", db, [.findOne "chapter"]) ∧
    ∀ u v : String, (get_progress u v db).1 = .okNull ∨
      ∃ d, (get_progress u v db).1 = .okDoc d := by
  refine ⟨?_, ?_, ?_, ?_, ?_⟩
  · simp [get_novel, oid, hm]
  · simp [get_chapter, oid, hm]
  · have hf : db.novel.find? (fun r => r._id == o) = none :=
      List.find?_eq_none.mpr (fun x hx => by simpa using hnovel x hx)
    simp [get_novel, oid, hv, hf]
  · have hf : db.chapter.find? (fun r => r._id == o) = none :=
      List.find?_eq_none.mpr (fun x hx => by simpa using hchap x hx)
    simp [get_chapter, oid, hv, hf]
  · intro u v
    cases hf : db.progress.find? (pmatch u v) with
    | none => exact Or.inl (by simp [get_progress, hf])
    | some d => exact Or.inr ⟨serializeDoc d.toDoc, by simp [get_progress, hf]⟩

theorem claim_C4_id_validation_witness :
    parseOid "zz" = none ∧
    parseOid "000000000000000000000000" = some 0 ∧
    (∀ r ∈ emptyDB.novel, r._id ≠ 0) ∧
    (∀ r ∈ emptyDB.chapter, r._id ≠ 0) ∧
    (get_novel "zz" emptyDB = (.err 400 "Invalid ID format", emptyDB, []) ∧
      get_chapter "zz" emptyDB = (.err 400 "Invalid ID format", emptyDB, []) ∧
      get_novel "000000000000000000000000" emptyDB =
        (.err 404 "Novel not found", emptyDB, [.findOne "novel"]) ∧
      get_chapter "000000000000000000000000" emptyDB =
        (.err 404 "Chapter not found", emptyDB, [.findOne "chapter"]) ∧
      ∀ u v : String, (get_progress u v emptyDB).1 = .okNull ∨
        ∃ d, (get_progress u v emptyDB).1 = .okDoc d) :=
  ⟨rfl, rfl, by simp [emptyDB], by simp [emptyDB],
   claim_C4_id_validation "zz" "000000000000000000000000" emptyDB 0 rfl rfl
     (by simp [emptyDB]) (by simp [emptyDB])⟩

/-- Claim C6: `GET /api/novels/(novel_id)/chapters` returns exactly the
chapters whose `novel_id` matches — duplicates of an `index` value
included, with multiplicities preserved — sorted ascending by `index`
regardless of insertion order. -/
theorem claim_C6_chapter_listing (novel_id : String) (db : DB) :
    ∃ l : List ChapterRec,
      (list_chapters novel_id db).1 = .okList (l.map (fun c => serializeDoc c.toDoc)) ∧
      l.Perm (db.chapter.filter (fun c => c.novel_id == novel_id)) ∧
      List.Pairwise (fun a b : ChapterRec => a.index ≤ b.index) l ∧
      ∀ c : ChapterRec,
        l.count c = ((db.chapter.filter (fun c2 => c2.novel_id == novel_id)).count c) := by
  refine ⟨(db.chapter.filter (fun c : ChapterRec => c.novel_id == novel_id)).mergeSort
      (fun a b : ChapterRec => a.index ≤ b.index), rfl, List.mergeSort_perm _ _, ?_, ?_⟩
  · have hp := @List.sorted_mergeSort ChapterRec
      (fun a b : ChapterRec => decide (a.index ≤ b.index))
      (fun a b c hab hbc => by
        simp only [decide_eq_true_eq] at hab hbc ⊢
        exact le_trans hab hbc)
      (fun a b => by
        simp only [Bool.or_eq_true, decide_eq_true_eq]
        exact le_total a.index b.index)
      (db.chapter.filter (fun c : ChapterRec => c.novel_id == novel_id))
    exact hp.imp (fun h => by simpa using h)
  · exact fun c => (List.mergeSort_perm _ _).count_eq c

/-- Claim C7: on an empty novel collection, `POST /api/seed` inserts
exactly 2 novels and 3 chapters and answers status "seeded" with those 2
novels; a second call answers status "exists" with the (at most 5)
existing novels and changes nothing. -/
theorem claim_C7_seed_twice (db : DB) (h : db.novel = []) :
    (seed_demo_data db).1 =
      .okSeed "seeded" ((seed_demo_data db).2.1.novel.map (fun r => serializeDoc r.toDoc)) ∧
    (seed_demo_data db).2.1.novel.map (fun r => r.title) =
      ["Neon Skies of Andromeda", "Quantum Garden"] ∧
    (seed_demo_data db).2.1.novel.length = 2 ∧
    (seed_demo_data db).2.1.chapter.length = db.chapter.length + 3 ∧
    (seed_demo_data db).2.1.progress = db.progress ∧
    (seed_demo_data (seed_demo_data db).2.1).1 =
      .okSeed "exists"
        (((seed_demo_data db).2.1.novel.take 5).map (fun r => serializeDoc r.toDoc)) ∧
    ((seed_demo_data db).2.1.novel.take 5).length ≤ 5 ∧
    (seed_demo_data (seed_demo_data db).2.1).2.1 = (seed_demo_data db).2.1 := by
  refine ⟨?_, ?_, ?_, ?_, ?_, ?_, ?_, ?_⟩ <;>
    simp [seed_demo_data, create_document_novel, create_document_chapter, h]

theorem claim_C7_seed_twice_witness :
    emptyDB.novel = [] ∧
    ((seed_demo_data emptyDB).1 =
      .okSeed "seeded"
        ((seed_demo_data emptyDB).2.1.novel.map (fun r => serializeDoc r.toDoc)) ∧
    (seed_demo_data emptyDB).2.1.novel.map (fun r => r.title) =
      ["Neon Skies of Andromeda", "Quantum Garden"] ∧
    (seed_demo_data emptyDB).2.1.novel.length = 2 ∧
    (seed_demo_data emptyDB).2.1.chapter.length = emptyDB.chapter.length + 3 ∧
    (seed_demo_data emptyDB).2.1.progress = emptyDB.progress ∧
    (seed_demo_data (seed_demo_data emptyDB).2.1).1 =
      .okSeed "exists"
        (((seed_demo_data emptyDB).2.1.novel.take 5).map (fun r => serializeDoc r.toDoc)) ∧
    ((seed_demo_data emptyDB).2.1.novel.take 5).length ≤ 5 ∧
    (seed_demo_data (seed_demo_data emptyDB).2.1).2.1 = (seed_demo_data emptyDB).2.1) :=
  ⟨rfl, claim_C7_seed_twice emptyDB rfl⟩

/-- Claim C10 counterexample: `serialize` on an empty (falsy) document
returns the very reference it was given — the same mapping, not a fresh
one. -/
theorem claim_C10_counterexample :
    serializeHeap [([] : Doc)] 0 = ([([] : Doc)], 0) := rfl

/-- Claim C10 as amended: `serialize` never modifies the document it is
given (every pre-existing heap object, the input included, is unchanged —
so the input keeps its `_id` field and ObjectId values); on a nonempty
document it returns a fresh mapping (a newly allocated reference,
distinct from the input's, holding the serialized copy), while an empty
document is handed back as the same reference. -/
theorem claim_C10_serialize_fresh_and_frame (h : Heap) (r : Nat) (hr : r < h.length) :
    (∀ i, i < h.length → heapGet (serializeHeap h r).1 i = heapGet h i) ∧
    ((heapGet h r).isEmpty = false →
      (serializeHeap h r).2 = h.length ∧ (serializeHeap h r).2 ≠ r ∧
      heapGet (serializeHeap h r).1 (serializeHeap h r).2 = serializeDoc (heapGet h r)) ∧
    ((heapGet h r).isEmpty = true → serializeHeap h r = (h, r)) := by
  refine ⟨?_, ?_, ?_⟩
  · intro i hi
    cases he : (heapGet h r).isEmpty with
    | true => rw [serializeHeap_empty h r (by simpa using he)]
    | false =>
        rw [serializeHeap_eq h r he]
        show heapGet (h ++ [serializeDoc (heapGet h r)]) i = heapGet h i
        unfold heapGet
        exact getD_concat_lt h _ [] i hi
  · intro he
    rw [serializeHeap_eq h r he]
    refine ⟨rfl, Nat.ne_of_gt hr, ?_⟩
    show heapGet (h ++ [serializeDoc (heapGet h r)]) h.length = serializeDoc (heapGet h r)
    unfold heapGet
    exact getD_concat_length h _ []
  · intro he
    exact serializeHeap_empty h r (by simpa using he)

theorem claim_C10_serialize_fresh_and_frame_witness :
    0 < ([[("_id", BVal.oidV 5)]] : Heap).length ∧
    ((∀ i, i < ([[("_id", BVal.oidV 5)]] : Heap).length →
        heapGet (serializeHeap [[("_id", BVal.oidV 5)]] 0).1 i =
          heapGet [[("_id", BVal.oidV 5)]] i) ∧
      ((heapGet [[("_id", BVal.oidV 5)]] 0).isEmpty = false →
        (serializeHeap [[("_id", BVal.oidV 5)]] 0).2 =
          ([[("_id", BVal.oidV 5)]] : Heap).length ∧
        (serializeHeap [[("_id", BVal.oidV 5)]] 0).2 ≠ 0 ∧
        heapGet (serializeHeap [[("_id", BVal.oidV 5)]] 0).1
            (serializeHeap [[("_id", BVal.oidV 5)]] 0).2 =
          serializeDoc (heapGet [[("_id", BVal.oidV 5)]] 0)) ∧
      ((heapGet [[("_id", BVal.oidV 5)]] 0).isEmpty = true →
        serializeHeap [[("_id", BVal.oidV 5)]] 0 = ([[("_id", BVal.oidV 5)]], 0))) :=
  ⟨by decide, claim_C10_serialize_fresh_and_frame [[("_id", BVal.oidV 5)]] 0 (by decide)⟩
